import Mathlib

/-!
Shallow embedding of `src/executor/evaluate/evaluated.rs`: the `Evaluated`
sum type over literal / string / typed-value representations, its equality,
partial ordering and the four arithmetic operators, plus the literal
arithmetic helpers (`literal_add`, `literal_subtract`, `literal_multiply`,
`literal_divide`, `literal_partial_cmp`).

Rust panics (`panic!()`, integer division by zero, division overflow) are
modelled as the `RRes.panic` outcome; `Err(e)` as `RRes.err e`; `Ok` as
`RRes.ok`.  64-bit signed integers are modelled as `Int` with explicit
wrapping into the i64 range where Rust's unchecked arithmetic can overflow
(release-mode wrapping semantics; the source leaves overflow unspecified).
-/

namespace GlueSQL

/-- The i64 lower bound, `-2^63`. -/
def I64_MIN : Int := -(2 ^ 63)

/-- The i64 upper bound, `2^63 - 1`. -/
def I64_MAX : Int := 2 ^ 63 - 1

/-- `v` is representable as a 64-bit signed integer. -/
def inI64 (v : Int) : Prop := I64_MIN ≤ v ∧ v ≤ I64_MAX

instance (v : Int) : Decidable (inI64 v) := by unfold inI64; infer_instance

/-- Wrap an integer into the i64 range (two's-complement wrapping, the
release-mode behaviour of Rust's unchecked `+`, `-`, `*`). -/
def wrapI64 (v : Int) : Int := (v + 2 ^ 63) % 2 ^ 64 - 2 ^ 63

/-- Parse a run of decimal digits as a natural number; `none` when the list
is empty or holds a non-digit. -/
def digitsToNat : List Char → Option Nat
  | [] => none
  | cs =>
    cs.foldlM
      (fun acc c => if c.isDigit then some (acc * 10 + (c.toNat - 48)) else none)
      (0 : Nat)

/-- Model of Rust `str::parse::<i64>`: an optional `+`/`-` sign, one or more
decimal digits, and an i64 range check. -/
def parseI64 (s : String) : Option Int :=
  let p : Int × List Char :=
    match s.data with
    | '-' :: cs => (-1, cs)
    | '+' :: cs => (1, cs)
    | cs => (1, cs)
  match digitsToNat p.2 with
  | none => none
  | some n =>
    let v : Int := p.1 * (n : Int)
    if inI64 v then some v else none

/-- Three-way comparison on `Int`, the model of Rust's `Ord::cmp` on i64. -/
def intCmp (a b : Int) : Ordering :=
  if a < b then .lt else if a = b then .eq else .gt

/-- Three-way comparison on `Nat` (used for characters). -/
def natCmp (a b : Nat) : Ordering :=
  if a < b then .lt else if a = b then .eq else .gt

/-- Lexicographic three-way comparison of character lists by code point. -/
def charListCmp : List Char → List Char → Ordering
  | [], [] => .eq
  | [], _ :: _ => .lt
  | _ :: _, [] => .gt
  | a :: as, b :: bs =>
    match natCmp a.toNat b.toNat with
    | .eq => charListCmp as bs
    | o => o

/-- Model of Rust's `str` ordering: lexicographic by UTF-8 bytes, which
coincides with lexicographic comparison by code point. -/
def strCmp (a b : String) : Ordering := charListCmp a.data b.data

/-- Modelled from the spec: the SQL literal node produced by parsing (the
external `sqlparser::ast::Value`, not part of this repository's files).  The
spec names numeric-text literals and single-quoted string literals as the
kinds in scope; `Boolean` and `Null` stand for the other literal kinds that
arithmetic/comparison must reject. -/
inductive AstValue where
  | Number (s : String)
  | SingleQuotedString (s : String)
  | Boolean (b : Bool)
  | Null
deriving DecidableEq

/-- Modelled from the spec: the external typed runtime value domain
(`data::Value`, not part of this repository's files).  The spec lists
integer, text and null among its variants; `I64` carries an integer in the
i64 range, `Str` a text, `Null` an incomparable value. -/
inductive Value where
  | I64 (n : Int)
  | Str (s : String)
  | Null
deriving DecidableEq

/-- Errors surfaced by evaluation: the two invariant errors declared in
`EvaluateError`, plus the errors the (spec-modelled) typed domain raises,
propagated unchanged. -/
inductive Err where
  | UnreachableEvaluatedArithmetic
  | UnreachableLiteralArithmetic
  | divideByZero
  | incompatibleTypes
  | castFailed
deriving DecidableEq

/-- Outcome of a fallible Rust computation: a panic, a propagated error
value, or a normal result. -/
inductive RRes (α : Type) where
  | panic : RRes α
  | err (e : Err) : RRes α
  | ok (a : α) : RRes α
deriving DecidableEq

/-- The `?` operator / `and_then` over `RRes`. -/
def RRes.bind {α β : Type} : RRes α → (α → RRes β) → RRes β
  | .panic, _ => .panic
  | .err e, _ => .err e
  | .ok a, f => f a

/-- `Result::map` over `RRes`. -/
def RRes.map {α β : Type} (f : α → β) : RRes α → RRes β
  | .panic => .panic
  | .err e => .err e
  | .ok a => .ok (f a)

/-- Modelled from the spec: the typed domain's equality against a literal
(`PartialEq<AstValue> for Value`, external): the literal side is coerced via
its raw text/number and compared within the typed domain. -/
def veqLit : Value → AstValue → Bool
  | .I64 n, .Number s => parseI64 s == some n
  | .Str t, .SingleQuotedString s => t == s
  | _, _ => false

/-- Modelled from the spec: the typed domain's partial order against a
literal (`PartialOrd<AstValue> for Value`, external): coerce the literal via
its raw text/number, absent when undefined. -/
def vpcLit : Value → AstValue → Option Ordering
  | .I64 n, .Number s => (parseI64 s).map (fun m => intCmp n m)
  | .Str t, .SingleQuotedString s => some (strCmp t s)
  | _, _ => none

/-- Modelled from the spec: the typed domain's own partial order
(`PartialOrd for Value`, external): defined within one type, absent across
incompatible types and on null. -/
def Value.partialCmp : Value → Value → Option Ordering
  | .I64 a, .I64 b => some (intCmp a b)
  | .Str a, .Str b => some (strCmp a b)
  | _, _ => none

/-- Modelled from the spec: the typed domain's fallible addition. -/
def Value.add : Value → Value → RRes Value
  | .I64 a, .I64 b => .ok (.I64 (wrapI64 (a + b)))
  | _, _ => .err .incompatibleTypes

/-- Modelled from the spec: the typed domain's fallible subtraction. -/
def Value.subtract : Value → Value → RRes Value
  | .I64 a, .I64 b => .ok (.I64 (wrapI64 (a - b)))
  | _, _ => .err .incompatibleTypes

/-- Modelled from the spec: the typed domain's fallible multiplication. -/
def Value.multiply : Value → Value → RRes Value
  | .I64 a, .I64 b => .ok (.I64 (wrapI64 (a * b)))
  | _, _ => .err .incompatibleTypes

/-- Modelled from the spec: the typed domain's fallible division; division
by a typed zero raises the domain's divide-by-zero error, propagated as an
ordinary evaluation error. -/
def Value.divide : Value → Value → RRes Value
  | .I64 _, .I64 0 => .err .divideByZero
  | .I64 a, .I64 b => .ok (.I64 (wrapI64 (Int.tdiv a b)))
  | _, _ => .err .incompatibleTypes

/-- Modelled from the spec: `Value::clone_by` (external), constructing a
value of the receiver's own type from a literal's raw content; fails when
the literal text is not representable in that type. -/
def Value.clone_by : Value → AstValue → RRes Value
  | .I64 _, .Number s =>
    match parseI64 s with
    | some n => .ok (.I64 n)
    | none => .err .castFailed
  | .Str _, .SingleQuotedString s => .ok (.Str s)
  | _, _ => .err .castFailed

/-- The evaluated-value sum type (`Evaluated<'a>`); references are erased,
so a borrowed and an owned variant carry the same payload type. -/
inductive Evaluated where
  | LiteralRef (v : AstValue)
  | Literal (v : AstValue)
  | StringRef (s : String)
  | ValueRef (v : GlueSQL.Value)
  | Value (v : GlueSQL.Value)
deriving DecidableEq

/-- The `eq_ast` closure: a literal equals a string only when it is a
single-quoted string literal with that inner text. -/
def eq_ast (l : AstValue) (r : String) : Bool :=
  match l with
  | .SingleQuotedString l => l == r
  | _ => false

/-- The `eq_val` closure: a typed value equals a string only when it is a
text value with that content. -/
def eq_val (l : Value) (r : String) : Bool :=
  match l with
  | .Str l => l == r
  | _ => false

/-- `PartialEq::eq` on `Evaluated`, with Rust's `panic!()` branches as
`RRes.panic`. -/
def Evaluated.eq : Evaluated → Evaluated → RRes Bool
  | .LiteralRef l, .LiteralRef r => .ok (l == r)
  | .LiteralRef l, .StringRef r => .ok (eq_ast l r)
  | .LiteralRef l, .ValueRef r => .ok (veqLit r l)
  | .LiteralRef l, .Value r => .ok (veqLit r l)
  | .LiteralRef _, .Literal _ => .panic
  | .StringRef l, .LiteralRef r => .ok (eq_ast r l)
  | .StringRef l, .StringRef r => .ok (l == r)
  | .StringRef l, .ValueRef r => .ok (eq_val r l)
  | .StringRef l, .Value r => .ok (eq_val r l)
  | .StringRef _, .Literal _ => .ok false
  | .ValueRef l, .LiteralRef r => .ok (veqLit l r)
  | .ValueRef l, .Literal r => .ok (veqLit l r)
  | .ValueRef l, .StringRef r => .ok (eq_val l r)
  | .ValueRef l, .ValueRef r => .ok (l == r)
  | .ValueRef l, .Value r => .ok (l == r)
  | .Value l, .LiteralRef r => .ok (veqLit l r)
  | .Value l, .StringRef r => .ok (eq_val l r)
  | .Value l, .ValueRef r => .ok (l == r)
  | .Value l, .Value r => .ok (l == r)
  | .Value _, .Literal _ => .panic
  | .Literal l, .ValueRef r => .ok (veqLit r l)
  | .Literal _, .StringRef _ => .ok false
  | .Literal _, _ => .panic

/-- `literal_partial_cmp`: numeric-text literals compare by parsing both as
i64; single-quoted strings compare lexicographically; everything else is
absent. -/
def literal_partial_cmp (a b : AstValue) : Option Ordering :=
  match a, b with
  | .Number l, .Number r =>
    match parseI64 l, parseI64 r with
    | some l, some r => some (intCmp l r)
    | _, _ => none
  | .SingleQuotedString l, .SingleQuotedString r => some (strCmp l r)
  | _, _ => none

/-- `PartialOrd::partial_cmp` on `Evaluated`, with `panic!()` branches as
`RRes.panic`.  Rust's `Ordering::reverse` is `Ordering.swap`. -/
def Evaluated.partial_cmp : Evaluated → Evaluated → RRes (Option Ordering)
  | .LiteralRef l, .LiteralRef r => .ok (literal_partial_cmp l r)
  | .LiteralRef l, .ValueRef r => .ok ((vpcLit r l).map Ordering.swap)
  | .LiteralRef l, .Value r => .ok ((vpcLit r l).map Ordering.swap)
  | .LiteralRef _, .StringRef _ => .ok none
  | .LiteralRef _, .Literal _ => .panic
  | .ValueRef l, .LiteralRef r => .ok (vpcLit l r)
  | .ValueRef l, .ValueRef r => .ok (Value.partialCmp l r)
  | .ValueRef l, .Value r => .ok (Value.partialCmp l r)
  | .ValueRef (.Str l), .StringRef r => .ok (some (strCmp l r))
  | .ValueRef _, .StringRef _ => .ok none
  | .ValueRef _, .Literal _ => .panic
  | .Value l, .LiteralRef r => .ok (vpcLit l r)
  | .Value l, .ValueRef r => .ok (Value.partialCmp l r)
  | .Value l, .Value r => .ok (Value.partialCmp l r)
  | .Value (.Str l), .StringRef r => .ok (some (strCmp l r))
  | .Value _, .StringRef _ => .ok none
  | .Value _, .Literal _ => .panic
  | .StringRef _, .LiteralRef _ => .ok none
  | .StringRef l, .ValueRef (.Str r) => .ok (some (strCmp l r))
  | .StringRef _, .ValueRef _ => .ok none
  | .StringRef l, .Value (.Str r) => .ok (some (strCmp l r))
  | .StringRef _, .Value _ => .ok none
  | .StringRef l, .StringRef r => .ok (some (strCmp l r))
  | .StringRef _, .Literal _ => .panic
  | .Literal _, _ => .panic

/-- `literal_add`: parse both numeric texts as i64 and add (wrapping);
non-numeric pairings raise `UnreachableLiteralArithmetic`; a failed parse of
a numeric pairing is a bare panic. -/
def literal_add (a b : AstValue) : RRes AstValue :=
  match a, b with
  | .Number a, .Number b =>
    match parseI64 a, parseI64 b with
    | some a, some b => .ok (.Number (toString (wrapI64 (a + b))))
    | _, _ => .panic
  | _, _ => .err .UnreachableLiteralArithmetic

/-- `literal_subtract`, as `literal_add` with subtraction. -/
def literal_subtract (a b : AstValue) : RRes AstValue :=
  match a, b with
  | .Number a, .Number b =>
    match parseI64 a, parseI64 b with
    | some a, some b => .ok (.Number (toString (wrapI64 (a - b))))
    | _, _ => .panic
  | _, _ => .err .UnreachableLiteralArithmetic

/-- `literal_multiply`, as `literal_add` with multiplication. -/
def literal_multiply (a b : AstValue) : RRes AstValue :=
  match a, b with
  | .Number a, .Number b =>
    match parseI64 a, parseI64 b with
    | some a, some b => .ok (.Number (toString (wrapI64 (a * b))))
    | _, _ => .panic
  | _, _ => .err .UnreachableLiteralArithmetic

/-- `literal_divide`: Rust's `a / b` on i64 panics on a zero divisor and on
the `i64::MIN / -1` overflow, and otherwise truncates toward zero. -/
def literal_divide (a b : AstValue) : RRes AstValue :=
  match a, b with
  | .Number a, .Number b =>
    match parseI64 a, parseI64 b with
    | some a, some b =>
      if b = 0 then .panic
      else if a = I64_MIN ∧ b = -1 then .panic
      else .ok (.Number (toString (Int.tdiv a b)))
    | _, _ => .panic
  | _, _ => .err .UnreachableLiteralArithmetic

/-- The `add_literal` closure of `Evaluated::add` (left operand is a
literal node). -/
def add_literal (l : AstValue) : Evaluated → RRes Evaluated
  | .LiteralRef r => (literal_add l r).map Evaluated.Literal
  | .Literal r => (literal_add l r).map Evaluated.Literal
  | .ValueRef r => ((r.clone_by l).bind fun c => r.add c).map Evaluated.Value
  | .Value r => ((r.clone_by l).bind fun c => r.add c).map Evaluated.Value
  | .StringRef _ => .err .UnreachableEvaluatedArithmetic

/-- The `add_value` closure of `Evaluated::add` (left operand is typed). -/
def add_value (l : Value) : Evaluated → RRes Evaluated
  | .LiteralRef r => ((l.clone_by r).bind fun c => l.add c).map Evaluated.Value
  | .Literal r => ((l.clone_by r).bind fun c => l.add c).map Evaluated.Value
  | .ValueRef r => (l.add r).map Evaluated.Value
  | .Value r => (l.add r).map Evaluated.Value
  | .StringRef _ => .err .UnreachableEvaluatedArithmetic

/-- `Evaluated::add`. -/
def Evaluated.add : Evaluated → Evaluated → RRes Evaluated
  | .LiteralRef l, other => add_literal l other
  | .Literal l, other => add_literal l other
  | .ValueRef l, other => add_value l other
  | .Value l, other => add_value l other
  | .StringRef _, _ => .err .UnreachableEvaluatedArithmetic

/-- The `subtract_literal` closure of `Evaluated::subtract`; note the source
computes `clone_by(l)?.subtract(r)` for a typed right operand. -/
def subtract_literal (l : AstValue) : Evaluated → RRes Evaluated
  | .LiteralRef r => (literal_subtract l r).map Evaluated.Literal
  | .Literal r => (literal_subtract l r).map Evaluated.Literal
  | .ValueRef r => ((r.clone_by l).bind fun c => c.subtract r).map Evaluated.Value
  | .Value r => ((r.clone_by l).bind fun c => c.subtract r).map Evaluated.Value
  | .StringRef _ => .err .UnreachableEvaluatedArithmetic

/-- The `subtract_value` closure of `Evaluated::subtract`. -/
def subtract_value (l : Value) : Evaluated → RRes Evaluated
  | .LiteralRef r => ((l.clone_by r).bind fun c => l.subtract c).map Evaluated.Value
  | .Literal r => ((l.clone_by r).bind fun c => l.subtract c).map Evaluated.Value
  | .ValueRef r => (l.subtract r).map Evaluated.Value
  | .Value r => (l.subtract r).map Evaluated.Value
  | .StringRef _ => .err .UnreachableEvaluatedArithmetic

/-- `Evaluated::subtract`. -/
def Evaluated.subtract : Evaluated → Evaluated → RRes Evaluated
  | .LiteralRef l, other => subtract_literal l other
  | .Literal l, other => subtract_literal l other
  | .ValueRef l, other => subtract_value l other
  | .Value l, other => subtract_value l other
  | .StringRef _, _ => .err .UnreachableEvaluatedArithmetic

/-- The `multiply_literal` closure of `Evaluated::multiply`. -/
def multiply_literal (l : AstValue) : Evaluated → RRes Evaluated
  | .LiteralRef r => (literal_multiply l r).map Evaluated.Literal
  | .Literal r => (literal_multiply l r).map Evaluated.Literal
  | .ValueRef r => ((r.clone_by l).bind fun c => c.multiply r).map Evaluated.Value
  | .Value r => ((r.clone_by l).bind fun c => c.multiply r).map Evaluated.Value
  | .StringRef _ => .err .UnreachableEvaluatedArithmetic

/-- The `multiply_value` closure of `Evaluated::multiply`. -/
def multiply_value (l : Value) : Evaluated → RRes Evaluated
  | .LiteralRef r => ((l.clone_by r).bind fun c => l.multiply c).map Evaluated.Value
  | .Literal r => ((l.clone_by r).bind fun c => l.multiply c).map Evaluated.Value
  | .ValueRef r => (l.multiply r).map Evaluated.Value
  | .Value r => (l.multiply r).map Evaluated.Value
  | .StringRef _ => .err .UnreachableEvaluatedArithmetic

/-- `Evaluated::multiply`. -/
def Evaluated.multiply : Evaluated → Evaluated → RRes Evaluated
  | .LiteralRef l, other => multiply_literal l other
  | .Literal l, other => multiply_literal l other
  | .ValueRef l, other => multiply_value l other
  | .Value l, other => multiply_value l other
  | .StringRef _, _ => .err .UnreachableEvaluatedArithmetic

/-- The `divide_literal` closure of `Evaluated::divide`. -/
def divide_literal (l : AstValue) : Evaluated → RRes Evaluated
  | .LiteralRef r => (literal_divide l r).map Evaluated.Literal
  | .Literal r => (literal_divide l r).map Evaluated.Literal
  | .ValueRef r => ((r.clone_by l).bind fun c => c.divide r).map Evaluated.Value
  | .Value r => ((r.clone_by l).bind fun c => c.divide r).map Evaluated.Value
  | .StringRef _ => .err .UnreachableEvaluatedArithmetic

/-- The `divide_value` closure of `Evaluated::divide`. -/
def divide_value (l : Value) : Evaluated → RRes Evaluated
  | .LiteralRef r => ((l.clone_by r).bind fun c => l.divide c).map Evaluated.Value
  | .Literal r => ((l.clone_by r).bind fun c => l.divide c).map Evaluated.Value
  | .ValueRef r => (l.divide r).map Evaluated.Value
  | .Value r => (l.divide r).map Evaluated.Value
  | .StringRef _ => .err .UnreachableEvaluatedArithmetic

/-- `Evaluated::divide`. -/
def Evaluated.divide : Evaluated → Evaluated → RRes Evaluated
  | .LiteralRef l, other => divide_literal l other
  | .Literal l, other => divide_literal l other
  | .ValueRef l, other => divide_value l other
  | .Value l, other => divide_value l other
  | .StringRef _, _ => .err .UnreachableEvaluatedArithmetic

/-- A numeric-text literal operand in either ownership mode: `true` gives
the owned `Literal`, `false` the borrowed `LiteralRef`. -/
def litOf : Bool → AstValue → Evaluated
  | true, v => .Literal v
  | false, v => .LiteralRef v

/-- `true` exactly on a numeric-text literal. -/
def isNumber : AstValue → Bool
  | .Number _ => true
  | _ => false

/-- Whether two literals are of one comparable kind: both numeric-text or
both single-quoted strings. -/
def sameCmpKind : AstValue → AstValue → Bool
  | .Number _, .Number _ => true
  | .SingleQuotedString _, .SingleQuotedString _ => true
  | _, _ => false

/-- The amended claim C4's description of comparisons with a `StringRef` on
the left: lexicographic against another string or a text-typed value, absent
against a borrowed literal or a non-text value, a panic against an owned
literal. -/
def stringBorrowedCmpLeft (s : String) : Evaluated → RRes (Option Ordering)
  | .StringRef t => .ok (some (strCmp s t))
  | .ValueRef (.Str t) => .ok (some (strCmp s t))
  | .Value (.Str t) => .ok (some (strCmp s t))
  | .Literal _ => .panic
  | _ => .ok none

/-- The amended claim C4's description of comparisons with a `StringRef` on
the right, mirroring `stringBorrowedCmpLeft`. -/
def stringBorrowedCmpRight (s : String) : Evaluated → RRes (Option Ordering)
  | .StringRef t => .ok (some (strCmp t s))
  | .ValueRef (.Str t) => .ok (some (strCmp t s))
  | .Value (.Str t) => .ok (some (strCmp t s))
  | .Literal _ => .panic
  | _ => .ok none

theorem beq_symm {α : Type} [BEq α] [LawfulBEq α] (x y : α) : (x == y) = (y == x) := by
  by_cases h : x = y
  · subst h; rfl
  · rw [beq_eq_false_iff_ne.mpr h, beq_eq_false_iff_ne.mpr (Ne.symm h)]

theorem wrapI64_eq_self {v : Int} (h : inI64 v) : wrapI64 v = v := by
  have h1 : -(9223372036854775808 : Int) ≤ v := by
    have := h.1; simp only [I64_MIN] at this; norm_num at this ⊢; linarith
  have h2 : v ≤ (9223372036854775807 : Int) := by
    have := h.2; simp only [I64_MAX] at this; norm_num at this ⊢; linarith
  show (v + 2 ^ 63) % 2 ^ 64 - 2 ^ 63 = v
  rw [Int.emod_eq_of_lt (by norm_num; linarith) (by norm_num; linarith)]
  ring

theorem natCmp_swap (a b : Nat) : natCmp b a = (natCmp a b).swap := by
  unfold natCmp
  rcases Nat.lt_trichotomy a b with h | h | h
  · simp [h, Nat.lt_asymm h, h.ne, h.ne', Ordering.swap]
  · simp [h, Ordering.swap]
  · simp [h, Nat.lt_asymm h, h.ne, h.ne', Ordering.swap]

theorem intCmp_swap (a b : Int) : intCmp b a = (intCmp a b).swap := by
  unfold intCmp
  rcases lt_trichotomy a b with h | h | h
  · simp [h, lt_asymm h, h.ne, h.ne', Ordering.swap]
  · simp [h, Ordering.swap]
  · simp [h, lt_asymm h, h.ne, h.ne', Ordering.swap]

theorem charListCmp_swap (as bs : List Char) :
    charListCmp bs as = (charListCmp as bs).swap := by
  induction as generalizing bs with
  | nil => cases bs <;> rfl
  | cons a as ih =>
    cases bs with
    | nil => rfl
    | cons b bs =>
      simp only [charListCmp]
      rw [natCmp_swap]
      cases natCmp a.toNat b.toNat
      · rfl
      · exact ih bs
      · rfl

theorem strCmp_swap (a b : String) : strCmp b a = (strCmp a b).swap :=
  charListCmp_swap a.data b.data

theorem vpc_swap (a b : Value) :
    Value.partialCmp b a = (Value.partialCmp a b).map Ordering.swap := by
  cases a <;> cases b <;>
    first
    | rfl
    | (simp only [Value.partialCmp]; rw [intCmp_swap]; cases intCmp _ _ <;> rfl)
    | (simp only [Value.partialCmp]; rw [strCmp_swap]; cases strCmp _ _ <;> rfl)

theorem lpc_swap (a b : AstValue) :
    literal_partial_cmp b a = (literal_partial_cmp a b).map Ordering.swap := by
  cases a <;> cases b <;>
    first
    | rfl
    | (rename_i s t
       simp only [literal_partial_cmp]
       rw [strCmp_swap]
       cases strCmp s t <;> rfl)
    | (rename_i s t
       simp only [literal_partial_cmp]
       cases hx : parseI64 s <;> cases hy : parseI64 t <;> simp [hx, hy]
       rw [intCmp_swap])

theorem optSwap_invol (o : Option Ordering) :
    (o.map Ordering.swap).map Ordering.swap = o := by
  cases o with
  | none => rfl
  | some x => cases x <;> rfl

theorem partial_cmp_swap (a b : Evaluated) :
    Evaluated.partial_cmp b a
      = RRes.map (Option.map Ordering.swap) (Evaluated.partial_cmp a b) := by
  cases a <;> cases b <;>
    first
    | rfl
    | (simp only [Evaluated.partial_cmp, RRes.map]
       first
       | (rw [lpc_swap])
       | (rw [vpc_swap])
       | (rw [optSwap_invol])
       | (rw [strCmp_swap]; cases strCmp _ _ <;> rfl))
    | (rename_i x y
       first
       | (cases x <;>
           first
           | rfl
           | (simp only [Evaluated.partial_cmp, RRes.map]; rw [strCmp_swap]; cases strCmp _ _ <;> rfl))
       | (cases y <;>
           first
           | rfl
           | (simp only [Evaluated.partial_cmp, RRes.map]; rw [strCmp_swap]; cases strCmp _ _ <;> rfl)))

theorem eq_symm_all (a b : Evaluated) : Evaluated.eq b a = Evaluated.eq a b := by
  cases a <;> cases b <;>
    first
    | rfl
    | (simp only [Evaluated.eq]; rw [beq_symm])

theorem clone_then_divide_zero (lit : AstValue) :
    ∃ e, ((GlueSQL.Value.clone_by (.I64 0) lit).bind fun c => c.divide (.I64 0)) = .err e := by
  cases lit with
  | Number s =>
    cases hs : parseI64 s
    · exact ⟨.castFailed, by simp [Value.clone_by, hs, RRes.bind]⟩
    · exact ⟨.divideByZero, by simp [Value.clone_by, hs, RRes.bind, Value.divide]⟩
  | SingleQuotedString s => exact ⟨.castFailed, rfl⟩
  | Boolean b => exact ⟨.castFailed, rfl⟩
  | Null => exact ⟨.castFailed, rfl⟩

/-- Claim C1 fails on the code: dividing the numeric-text literal `"6"` by
the numeric-text literal `"0"` panics (Rust's integer division by zero)
instead of returning a propagated evaluation error. -/
theorem counterexample_C1 :
    Evaluated.divide (.LiteralRef (.Number "6")) (.LiteralRef (.Number "0")) = .panic := by
  decide

/-- Amended claim C1: a division whose divisor is a typed zero, or that is
routed through the typed domain (a typed operand on either side, the literal
side coerced), surfaces as a propagated error; but a literal-by-literal
division whose divisor is the numeric-text literal `"0"` panics. -/
theorem claim_C1_amended (l : GlueSQL.Value) (lit : AstValue) (a : String) (bl br : Bool) :
    (∃ e, Evaluated.divide (.ValueRef l) (.ValueRef (.I64 0)) = .err e)
    ∧ (∃ e, Evaluated.divide (.ValueRef l) (.Value (.I64 0)) = .err e)
    ∧ (∃ e, Evaluated.divide (.Value l) (.ValueRef (.I64 0)) = .err e)
    ∧ (∃ e, Evaluated.divide (.Value l) (.Value (.I64 0)) = .err e)
    ∧ (∃ e, Evaluated.divide (litOf bl lit) (.ValueRef (.I64 0)) = .err e)
    ∧ (∃ e, Evaluated.divide (litOf bl lit) (.Value (.I64 0)) = .err e)
    ∧ (∃ e, Evaluated.divide (.ValueRef l) (litOf br (.Number "0")) = .err e)
    ∧ (∃ e, Evaluated.divide (.Value l) (litOf br (.Number "0")) = .err e)
    ∧ Evaluated.divide (litOf bl (.Number a)) (litOf br (.Number "0")) = .panic := by
  obtain ⟨e, he⟩ := clone_then_divide_zero lit
  refine ⟨?_, ?_, ?_, ?_, ?_, ?_, ?_, ?_, ?_⟩
  · cases l <;> exact ⟨_, rfl⟩
  · cases l <;> exact ⟨_, rfl⟩
  · cases l <;> exact ⟨_, rfl⟩
  · cases l <;> exact ⟨_, rfl⟩
  · cases bl <;>
      exact ⟨e, by simp [litOf, Evaluated.divide, divide_literal, he, RRes.map]⟩
  · cases bl <;>
      exact ⟨e, by simp [litOf, Evaluated.divide, divide_literal, he, RRes.map]⟩
  · cases br <;> cases l <;>
      simp [litOf, Evaluated.divide, divide_value, Value.clone_by, RRes.bind, RRes.map,
        (by decide : parseI64 "0" = some 0), Value.divide]
  · cases br <;> cases l <;>
      simp [litOf, Evaluated.divide, divide_value, Value.clone_by, RRes.bind, RRes.map,
        (by decide : parseI64 "0" = some 0), Value.divide]
  · cases bl <;> cases br <;> cases ha : parseI64 a <;>
      simp [litOf, Evaluated.divide, divide_literal, literal_divide, ha,
        (by decide : parseI64 "0" = some 0), RRes.map]

/-- Claim C2: literal-literal arithmetic on numeric texts that parse as i64
returns the owned numeric-text literal of the i64 result (division
truncating toward zero), whenever that result is i64-representable. -/
theorem claim_C2 (bl br : Bool) (a b : String) (x y : Int)
    (ha : parseI64 a = some x) (hb : parseI64 b = some y) :
    (inI64 (x + y) →
      Evaluated.add (litOf bl (.Number a)) (litOf br (.Number b))
        = .ok (.Literal (.Number (toString (x + y)))))
    ∧ (inI64 (x - y) →
      Evaluated.subtract (litOf bl (.Number a)) (litOf br (.Number b))
        = .ok (.Literal (.Number (toString (x - y)))))
    ∧ (inI64 (x * y) →
      Evaluated.multiply (litOf bl (.Number a)) (litOf br (.Number b))
        = .ok (.Literal (.Number (toString (x * y)))))
    ∧ (y ≠ 0 → inI64 (Int.tdiv x y) →
      Evaluated.divide (litOf bl (.Number a)) (litOf br (.Number b))
        = .ok (.Literal (.Number (toString (Int.tdiv x y))))) := by
  refine ⟨fun h => ?_, fun h => ?_, fun h => ?_, fun hy h => ?_⟩
  · cases bl <;> cases br <;>
      simp [litOf, Evaluated.add, add_literal, literal_add, ha, hb, RRes.map,
        wrapI64_eq_self h]
  · cases bl <;> cases br <;>
      simp [litOf, Evaluated.subtract, subtract_literal, literal_subtract, ha, hb, RRes.map,
        wrapI64_eq_self h]
  · cases bl <;> cases br <;>
      simp [litOf, Evaluated.multiply, multiply_literal, literal_multiply, ha, hb, RRes.map,
        wrapI64_eq_self h]
  · have hnm : ¬(x = I64_MIN ∧ y = -1) := by
      rintro ⟨rfl, rfl⟩
      exact absurd h (by decide)
    cases bl <;> cases br <;>
      simp [litOf, Evaluated.divide, divide_literal, literal_divide, ha, hb, RRes.map,
        hy, hnm]

/-- Witness for claim C2 at the literals `"2"` and `"3"`. -/
theorem claim_C2_witness :
    Evaluated.add (.LiteralRef (.Number "2")) (.LiteralRef (.Number "3"))
      = .ok (.Literal (.Number "5"))
    ∧ Evaluated.subtract (.LiteralRef (.Number "2")) (.LiteralRef (.Number "3"))
      = .ok (.Literal (.Number "-1"))
    ∧ Evaluated.multiply (.LiteralRef (.Number "2")) (.LiteralRef (.Number "3"))
      = .ok (.Literal (.Number "6"))
    ∧ Evaluated.divide (.LiteralRef (.Number "2")) (.LiteralRef (.Number "3"))
      = .ok (.Literal (.Number "0")) := by
  have h := claim_C2 false false "2" "3" 2 3 (by decide) (by decide)
  exact ⟨(h.1 (by decide)).trans (by decide),
    (h.2.1 (by decide)).trans (by decide),
    (h.2.2.1 (by decide)).trans (by decide),
    (h.2.2.2 (by decide) (by decide)).trans (by decide)⟩

/-- Claim C3 fails on the code: comparing a borrowed typed value against an
owned literal panics instead of delegating to the typed domain. -/
theorem counterexample_C3 :
    Evaluated.partial_cmp (.ValueRef (.I64 1)) (.Literal (.Number "1")) = .panic := by
  decide

/-- Amended claim C3: typed vs typed and typed vs borrowed-literal
comparisons delegate to the typed domain's partial order (absent when that
domain declares the comparison undefined); typed vs owned-literal does not
delegate but is an invariant-violation panic. -/
theorem claim_C3_amended (l r : GlueSQL.Value) (lit : AstValue) :
    Evaluated.partial_cmp (.ValueRef l) (.ValueRef r) = .ok (Value.partialCmp l r)
    ∧ Evaluated.partial_cmp (.ValueRef l) (.Value r) = .ok (Value.partialCmp l r)
    ∧ Evaluated.partial_cmp (.Value l) (.ValueRef r) = .ok (Value.partialCmp l r)
    ∧ Evaluated.partial_cmp (.Value l) (.Value r) = .ok (Value.partialCmp l r)
    ∧ Evaluated.partial_cmp (.ValueRef l) (.LiteralRef lit) = .ok (vpcLit l lit)
    ∧ Evaluated.partial_cmp (.Value l) (.LiteralRef lit) = .ok (vpcLit l lit)
    ∧ Evaluated.partial_cmp (.ValueRef l) (.Literal lit) = .panic
    ∧ Evaluated.partial_cmp (.Value l) (.Literal lit) = .panic := by
  refine ⟨?_, ?_, ?_, ?_, ?_, ?_, ?_, ?_⟩ <;> cases l <;> rfl

/-- Claim C4 fails on the code: comparing a `StringRef` against an owned
literal panics, it is not absent. -/
theorem counterexample_C4 :
    Evaluated.partial_cmp (.StringRef "a") (.Literal (.SingleQuotedString "a")) = .panic := by
  decide

/-- Amended claim C4: a `StringRef` compares lexicographically against
another `StringRef` or a text-typed value; every other pairing in either
argument position is absent, except an owned-literal pairing, which is an
invariant-violation panic. -/
theorem claim_C4_amended (s : String) (e : Evaluated) :
    Evaluated.partial_cmp (.StringRef s) e = stringBorrowedCmpLeft s e
    ∧ Evaluated.partial_cmp e (.StringRef s) = stringBorrowedCmpRight s e := by
  constructor <;>
    (cases e <;> first | rfl | (rename_i v; cases v <;> rfl))

/-- Claim C5 fails on the code: equality of an owned literal against a
`StringRef` returns the ordinary result `false` (in both argument orders)
rather than hitting an unreachable branch. -/
theorem counterexample_C5 :
    Evaluated.eq (.Literal (.Number "1")) (.StringRef "1") = .ok false
    ∧ Evaluated.eq (.StringRef "1") (.Literal (.Number "1")) = .ok false := by
  exact ⟨by decide, by decide⟩

/-- Amended claim C5: equality of an owned literal against an owned or
borrowed literal (either order) is an invariant-violation panic; equality of
an owned literal against a `StringRef` (either order) is the ordinary result
`false`. -/
theorem claim_C5_amended (x y : AstValue) (s : String) :
    Evaluated.eq (.Literal x) (.Literal y) = .panic
    ∧ Evaluated.eq (.Literal x) (.LiteralRef y) = .panic
    ∧ Evaluated.eq (.LiteralRef y) (.Literal x) = .panic
    ∧ Evaluated.eq (.Literal x) (.StringRef s) = .ok false
    ∧ Evaluated.eq (.StringRef s) (.Literal x) = .ok false :=
  ⟨rfl, rfl, rfl, rfl, rfl⟩

/-- Claim C6: each of the four arithmetic operations fails with the
`UnreachableEvaluatedArithmetic` invariant error whenever either operand is
a `StringRef`. -/
theorem claim_C6 (a b : Evaluated) (s : String)
    (h : a = .StringRef s ∨ b = .StringRef s) :
    Evaluated.add a b = .err .UnreachableEvaluatedArithmetic
    ∧ Evaluated.subtract a b = .err .UnreachableEvaluatedArithmetic
    ∧ Evaluated.multiply a b = .err .UnreachableEvaluatedArithmetic
    ∧ Evaluated.divide a b = .err .UnreachableEvaluatedArithmetic := by
  rcases h with rfl | rfl
  · exact ⟨rfl, rfl, rfl, rfl⟩
  · cases a <;> exact ⟨rfl, rfl, rfl, rfl⟩

/-- Witness for claim C6 with a `StringRef` left operand. -/
theorem claim_C6_witness :
    Evaluated.add (.StringRef "abc") (.LiteralRef (.Number "1"))
      = .err .UnreachableEvaluatedArithmetic :=
  (claim_C6 (.StringRef "abc") (.LiteralRef (.Number "1")) "abc" (Or.inl rfl)).1

/-- Claim C7: equality is symmetric on every pair whose comparison returns
an ordinary boolean (the unreachable pairings panic in both orders and are
excluded). -/
theorem claim_C7 (a b : Evaluated) (v : Bool) (h : Evaluated.eq a b = .ok v) :
    Evaluated.eq b a = .ok v := by
  rw [eq_symm_all a b]
  exact h

/-- Witness for claim C7: a literal/string pair in both orders. -/
theorem claim_C7_witness :
    Evaluated.eq (.StringRef "3") (.LiteralRef (.Number "3")) = .ok false :=
  claim_C7 (.LiteralRef (.Number "3")) (.StringRef "3") false (by decide)

/-- Claim C8: the partial ordering is antisymmetric where defined, the
numeric literals `"2"` and `"5"` compare Less and Greater in the two
orders, and a literal-versus-typed comparison is the reversal of the
typed-side comparison. -/
theorem claim_C8 :
    (∀ a b : Evaluated, Evaluated.partial_cmp a b = .ok (some .lt) →
      Evaluated.partial_cmp b a = .ok (some .gt))
    ∧ Evaluated.partial_cmp (.LiteralRef (.Number "2")) (.LiteralRef (.Number "5"))
        = .ok (some .lt)
    ∧ Evaluated.partial_cmp (.LiteralRef (.Number "5")) (.LiteralRef (.Number "2"))
        = .ok (some .gt)
    ∧ ∀ (l : AstValue) (r : GlueSQL.Value),
        Evaluated.partial_cmp (.LiteralRef l) (.ValueRef r)
          = .ok ((vpcLit r l).map Ordering.swap)
        ∧ Evaluated.partial_cmp (.LiteralRef l) (.Value r)
          = .ok ((vpcLit r l).map Ordering.swap) := by
  refine ⟨fun a b h => ?_, by decide, by decide, fun l r => ⟨rfl, rfl⟩⟩
  rw [partial_cmp_swap a b, h]
  rfl

/-- Witness for claim C8's antisymmetry at the literals `"2"` and `"5"`. -/
theorem claim_C8_witness :
    Evaluated.partial_cmp (.LiteralRef (.Number "5")) (.LiteralRef (.Number "2"))
      = .ok (some .gt) :=
  claim_C8.1 _ _ (by decide)

/-- Claim C9: literal vs literal comparison parses two numeric texts as i64
(absent when either parse fails), compares two single-quoted strings
lexicographically, and is absent on any mixed or other-kind pairing. -/
theorem claim_C9 (a b s t : String) :
    (literal_partial_cmp (.Number a) (.Number b)
      = (parseI64 a).bind fun x => (parseI64 b).map fun y => intCmp x y)
    ∧ ((parseI64 a = none ∨ parseI64 b = none) →
        literal_partial_cmp (.Number a) (.Number b) = none)
    ∧ literal_partial_cmp (.SingleQuotedString s) (.SingleQuotedString t)
        = some (strCmp s t)
    ∧ literal_partial_cmp (.Number a) (.SingleQuotedString s) = none
    ∧ literal_partial_cmp (.SingleQuotedString s) (.Number a) = none
    ∧ ∀ l r : AstValue, sameCmpKind l r = false → literal_partial_cmp l r = none := by
  refine ⟨?_, ?_, rfl, rfl, rfl, ?_⟩
  · cases hx : parseI64 a <;> cases hy : parseI64 b <;>
      simp [literal_partial_cmp, hx, hy]
  · rintro (h | h)
    · simp [literal_partial_cmp, h]
    · cases hx : parseI64 a <;> simp [literal_partial_cmp, hx, h]
  · intro l r h
    cases l <;> cases r <;> simp_all [sameCmpKind, literal_partial_cmp]

/-- Witness for claim C9: a non-parsing numeric text and a mixed-kind
pairing are both absent. -/
theorem claim_C9_witness :
    literal_partial_cmp (.Number "1.5") (.Number "2") = none
    ∧ literal_partial_cmp (.Number "1") (.Boolean true) = none :=
  ⟨(claim_C9 "1.5" "2" "x" "y").2.1 (Or.inl (by decide)),
   (claim_C9 "1" "2" "x" "y").2.2.2.2.2 _ _ (by decide)⟩

/-- Claim C10 fails on the code: `i64::MIN / -1` parses and has a nonzero
divisor, yet `literal_divide` panics (Rust division overflow) instead of
returning Ok. -/
theorem counterexample_C10 :
    literal_divide (.Number "-9223372036854775808") (.Number "-1") = .panic := by
  decide

/-- Amended claim C10: the literal helpers return Ok exactly when both
operands are numeric texts parsing as i64 — for divide also requiring a
nonzero divisor and excluding the `i64::MIN / -1` overflow, both of which
panic; a failed parse of a numeric pairing is a bare panic; a non-numeric
pairing is the recoverable `UnreachableLiteralArithmetic` error. -/
theorem claim_C10_amended (a b : String) (x y : Int) (l r : AstValue) :
    ((parseI64 a = some x ∧ parseI64 b = some y) →
      (∃ v, literal_add (.Number a) (.Number b) = .ok v)
      ∧ (∃ v, literal_subtract (.Number a) (.Number b) = .ok v)
      ∧ (∃ v, literal_multiply (.Number a) (.Number b) = .ok v)
      ∧ (y ≠ 0 → ¬(x = I64_MIN ∧ y = -1) →
          ∃ v, literal_divide (.Number a) (.Number b) = .ok v)
      ∧ ((y = 0 ∨ (x = I64_MIN ∧ y = -1)) →
          literal_divide (.Number a) (.Number b) = .panic))
    ∧ ((parseI64 a = none ∨ parseI64 b = none) →
        literal_add (.Number a) (.Number b) = .panic
        ∧ literal_subtract (.Number a) (.Number b) = .panic
        ∧ literal_multiply (.Number a) (.Number b) = .panic
        ∧ literal_divide (.Number a) (.Number b) = .panic)
    ∧ ((isNumber l = false ∨ isNumber r = false) →
        literal_add l r = .err .UnreachableLiteralArithmetic
        ∧ literal_subtract l r = .err .UnreachableLiteralArithmetic
        ∧ literal_multiply l r = .err .UnreachableLiteralArithmetic
        ∧ literal_divide l r = .err .UnreachableLiteralArithmetic) := by
  refine ⟨fun hp => ?_, fun h => ?_, fun h => ?_⟩
  · obtain ⟨ha, hb⟩ := hp
    refine ⟨⟨.Number (toString (wrapI64 (x + y))), by simp [literal_add, ha, hb]⟩,
      ⟨.Number (toString (wrapI64 (x - y))), by simp [literal_subtract, ha, hb]⟩,
      ⟨.Number (toString (wrapI64 (x * y))), by simp [literal_multiply, ha, hb]⟩,
      fun hy hnm => ⟨.Number (toString (Int.tdiv x y)),
        by simp [literal_divide, ha, hb, hy, hnm]⟩,
      fun hz => ?_⟩
    rcases hz with rfl | ⟨rfl, rfl⟩
    · simp [literal_divide, ha, hb]
    · simp [literal_divide, ha, hb]
  · rcases h with h | h
    · exact ⟨by simp [literal_add, h], by simp [literal_subtract, h],
        by simp [literal_multiply, h], by simp [literal_divide, h]⟩
    · cases hx : parseI64 a <;>
        exact ⟨by simp [literal_add, hx, h], by simp [literal_subtract, hx, h],
          by simp [literal_multiply, hx, h], by simp [literal_divide, hx, h]⟩
  · cases l <;> cases r <;>
      simp_all [isNumber, literal_add, literal_subtract, literal_multiply, literal_divide]

/-- Witness for amended claim C10: the Ok case at `"2"` and `"3"`, the
divide-by-zero panic at `"2"` and `"0"`, and the non-numeric error. -/
theorem claim_C10_witness :
    (∃ v, literal_add (.Number "2") (.Number "0") = .ok v)
    ∧ literal_divide (.Number "2") (.Number "0") = .panic
    ∧ literal_add (.SingleQuotedString "a") (.Number "3")
        = .err .UnreachableLiteralArithmetic := by
  have h := claim_C10_amended "2" "0" 2 0 (.SingleQuotedString "a") (.Number "3")
  exact ⟨(h.1 ⟨by decide, by decide⟩).1,
    (h.1 ⟨by decide, by decide⟩).2.2.2.2 (Or.inl rfl),
    (h.2.2 (Or.inl (by decide))).1⟩

end GlueSQL
